import Mathlib

/-!
Shallow embedding of src/generate_images.py (github-stats image generation).

The script fetches a statistics snapshot, renders two JSON payloads and two
SVG badges from static templates, and writes them under a generated folder.
Python dictionaries with optional keys are modelled as structures of Option
fields; dictionary .get is Option.getD or a direct Option match; Python
string formatting is reimplemented on lists of characters so that every
definition evaluates inside the kernel.  Placeholder braces in string
literals are written with \x7b and \x7d escapes.
-/

/-- JSON values as produced by json.dump: null, strings, integers,
    floating-point numbers (modelled as rationals) and ordered objects. -/
inductive JValue where
  | jnull : JValue
  | jstr : String → JValue
  | jint : Int → JValue
  | jnum : ℚ → JValue
  | jobj : List (String × JValue) → JValue

/-- One value of the languages mapping returned by the Stats provider:
    a Python dict with optional keys size, color and prop
    (lines 74-85 read them with .get). -/
structure LangEntry where
  size : Option Nat
  color : Option String
  prop : Option ℚ
deriving DecidableEq

/-- The statistics snapshot exposed by the Stats object: one field per
    awaited accessor used in generate_overview and generate_languages. -/
structure StatsSnapshot where
  name : String
  stargazers : Nat
  forks : Nat
  total_contributions : Nat
  lines_changed : Nat × Nat
  views : Nat
  repos : List String
  languages : List (String × LangEntry)

/-!  Template engine.  Lines 56-62 and 116-117 call re.sub with patterns
such as the name placeholder; those patterns contain no active regular
expression metacharacters (a brace not introducing a quantifier is literal),
so each call is a plain replace-all of a literal token, scanning left to
right without overlap.  The model scans one character at a time; after a
match it emits the replacement and skips the rest of the matched token. -/

/-- Replace every occurrence of pat by repl in the third argument, scanning
    left to right; the Nat argument counts characters still to be skipped
    from a match already emitted. -/
def replaceAllAux (pat repl : List Char) : List Char → Nat → List Char
  | [], _ => []
  | _ :: rest, Nat.succ skip => replaceAllAux pat repl rest skip
  | c :: rest, 0 =>
    if pat.isPrefixOf (c :: rest) then
      repl ++ replaceAllAux pat repl rest (pat.length - 1)
    else
      c :: replaceAllAux pat repl rest 0

/-- Model of re.sub(pattern, repl, s) for a literal pattern: replace every
    occurrence of pat in s by repl. -/
def pyReplace (pat repl s : String) : String :=
  String.mk (replaceAllAux pat.data repl.data s.data 0)

/-- The chain of re.sub calls of the source, applied in program order:
    each call rewrites the whole current text. -/
def applySubsts (subs : List (String × String)) (template : String) : String :=
  subs.foldl (fun out p => pyReplace p.1 p.2 out) template

/-!  Number formatting. -/

/-- Group a reversed digit list in threes, least significant digits first,
    inserting a comma between groups: helper for the format spec with a
    comma used on every numeric overview field. -/
def commaGroupsRev : List Char → List Char
  | [] => []
  | [a] => [a]
  | [a, b] => [a, b]
  | [a, b, c] => [a, b, c]
  | a :: b :: c :: d :: rest => a :: b :: c :: ',' :: commaGroupsRev (d :: rest)

/-- Python format of a nonnegative integer with a comma as thousands
    separator, as in the overview SVG substitutions (lines 57-62). -/
def fmtThousands (n : Nat) : String :=
  String.mk ((commaGroupsRev (Nat.repr n).data.reverse).reverse)

/-- Left-pad a digit list with zeros to the given width. -/
def padLeftZeros (k : Nat) (s : List Char) : List Char :=
  List.replicate (k - s.length) '0' ++ s

/-- Python fixed-point format with the given number of fractional digits,
    for the nonnegative percentage values of the languages badge
    (format specs 0.3f and 0.2f on lines 103 and 112).  The source formats
    an IEEE double with round half to even; the model formats the exact
    rational with round half up.  Every claim evaluates this only at values
    where the two conventions agree. -/
def fmtFixed (digits : Nat) (q : ℚ) : String :=
  let n : Int := ⌊q * (10 : ℚ) ^ digits + 1 / 2⌋
  let scale : Int := (10 : Int) ^ digits
  String.mk ((Nat.repr (n / scale).toNat).data ++
    '.' :: padLeftZeros digits (Nat.repr (n % scale).toNat).data)

/-!  Overview renderer (generate_overview, lines 31-65). -/

/-- The overview JSON payload of lines 37-45: a flat mapping with exactly
    seven keys; lines_changed adds the two components of the pair and repos
    takes the length of the repository collection. -/
def overview_data (s : StatsSnapshot) : List (String × JValue) :=
  [("name", JValue.jstr s.name),
   ("stars", JValue.jint s.stargazers),
   ("forks", JValue.jint s.forks),
   ("contributions", JValue.jint s.total_contributions),
   ("lines_changed", JValue.jint (s.lines_changed.1 + s.lines_changed.2)),
   ("views", JValue.jint s.views),
   ("repos", JValue.jint s.repos.length)]

/-- The substitutions applied to the overview template, in the order of
    lines 56-62: the name is inserted as plain text, every other field is
    formatted with thousands separators. -/
def overviewSubsts (s : StatsSnapshot) : List (String × String) :=
  [("\x7b\x7b name \x7d\x7d", s.name),
   ("\x7b\x7b stars \x7d\x7d", fmtThousands s.stargazers),
   ("\x7b\x7b forks \x7d\x7d", fmtThousands s.forks),
   ("\x7b\x7b contributions \x7d\x7d", fmtThousands s.total_contributions),
   ("\x7b\x7b lines_changed \x7d\x7d",
      fmtThousands (s.lines_changed.1 + s.lines_changed.2)),
   ("\x7b\x7b views \x7d\x7d", fmtThousands s.views),
   ("\x7b\x7b repos \x7d\x7d", fmtThousands s.repos.length)]

/-- The rendered overview SVG text. -/
def generateOverviewSvg (template : String) (s : StatsSnapshot) : String :=
  applySubsts (overviewSubsts s) template

/-!  Languages renderer (generate_languages, lines 68-120). -/

/-- The comparison realised by sorted(..., reverse=True, key size) when all
    size keys are present: a stable sort placing larger sizes first. -/
def langDescOrder (a b : String × LangEntry) : Bool :=
  decide (b.2.size.getD 0 ≤ a.2.size.getD 0)

/-- Exceptions the embedded fragments of the script can raise. -/
inductive PyError where
  | typeError : PyError
deriving DecidableEq

/-- Model of the sorted call of lines 74-76.  CPython computes the key of
    every item first and compares keys with the less-than operator; with at
    least two items every key takes part in at least one comparison, and a
    key that is None cannot be compared, raising TypeError.  With at most
    one item no comparison happens.  When all sizes are present the result
    is the stable descending sort by size. -/
def sortLanguages (l : List (String × LangEntry)) :
    Except PyError (List (String × LangEntry)) :=
  if 2 ≤ l.length ∧ l.any (fun p => p.2.size.isNone) = true then
    Except.error PyError.typeError
  else
    Except.ok (l.mergeSort langDescOrder)

/-- JSON value of an optional integer: absent becomes null. -/
def jOfOptNat : Option Nat → JValue
  | none => JValue.jnull
  | some n => JValue.jint n

/-- JSON value of an optional string: absent becomes null. -/
def jOfOptStr : Option String → JValue
  | none => JValue.jnull
  | some c => JValue.jstr c

/-- One entry of the languages JSON payload (lines 79-83): size and color
    are read with a plain .get, so absence passes through as null, while
    percentage is read with .get and the default 0. -/
def langJson (d : LangEntry) : JValue :=
  JValue.jobj [("size", jOfOptNat d.size),
               ("color", jOfOptStr d.color),
               ("percentage", JValue.jnum (d.prop.getD 0))]

/-- The languages JSON payload built from the sorted sequence
    (lines 78-85), keeping its order. -/
def languages_data (sorted : List (String × LangEntry)) :
    List (String × JValue) :=
  sorted.map (fun p => (p.1, langJson p.2))

/-- Line 100: the color read with .get and the fixed default. -/
def resolvedColor (d : LangEntry) : String := d.color.getD "#000000"

/-- One segment of the progress fragment (lines 101-105). -/
def progressSegment (d : LangEntry) : String :=
  "<span style=\"background-color: " ++ resolvedColor d ++
  ";width: " ++ fmtFixed 3 (d.prop.getD 0) ++
  "%;\" class=\"progress-item\"></span>"

/-- The progress fragment: segments concatenated in sorted order
    (lines 96-105). -/
def progressFragment (l : List (String × LangEntry)) : String :=
  l.foldl (fun acc p => acc ++ progressSegment p.2) ""

/-- Line 98 and line 107: the delay of the list item at position i. -/
def animationDelay (i : Nat) : Nat := i * 150

/-- The part of a list item between the delay and the percentage label:
    the marker icon with its fill color and the language name
    (lines 108-112). -/
def langListItemBody (lang : String) (d : LangEntry) : String :=
  "\n<svg xmlns=\"http://www.w3.org/2000/svg\" class=\"octicon\" style=\"fill:"
  ++ resolvedColor d ++
  ";\"\nviewBox=\"0 0 16 16\" version=\"1.1\" width=\"16\" height=\"16\"><path\nfill-rule=\"evenodd\" d=\"M8 4a4 4 0 100 8 4 4 0 000-8z\"></path></svg>\n<span class=\"lang\">"
  ++ lang ++ "</span>\n<span class=\"percent\">"

/-- One item of the language list fragment (lines 106-114): the delay at
    position i, the marker and name, and the percentage formatted to two
    decimal places with default 0. -/
def langListItem (i : Nat) (lang : String) (d : LangEntry) : String :=
  "\n<li style=\"animation-delay: " ++ Nat.repr (animationDelay i) ++
  "ms;\">" ++ langListItemBody lang d ++
  fmtFixed 2 (d.prop.getD 0) ++ "%</span>\n</li>\n"

/-- The items of the language list fragment, one per sorted entry, indexed
    from 0 by the enumerate of line 99. -/
def langListItems (l : List (String × LangEntry)) : List String :=
  l.enum.map (fun p => langListItem p.1 p.2.1 p.2.2)

/-- The language list fragment: items concatenated in sorted order. -/
def langListFragment (l : List (String × LangEntry)) : String :=
  (langListItems l).foldl (fun acc it => acc ++ it) ""

/-- The two substitutions applied to the languages template
    (lines 116-117). -/
def languagesSubsts (sorted : List (String × LangEntry)) :
    List (String × String) :=
  [("\x7b\x7b progress \x7d\x7d", progressFragment sorted),
   ("\x7b\x7b lang_list \x7d\x7d", langListFragment sorted)]

/-!  Side effects and the run model. -/

/-- Observable filesystem effects of a run: creating the output folder and
    writing a JSON or text file. -/
inductive Effect where
  | mkOutputDir : Effect
  | writeJson : String → JValue → Effect
  | writeText : String → String → Effect

/-- The effects of generate_languages (lines 68-120).  The sorted call of
    line 74 is the first statement, before any folder creation or write, so
    when it raises the renderer performs no effect at all. -/
def generateLanguagesRun (template : String)
    (langs : List (String × LangEntry)) : Except PyError (List Effect) :=
  match sortLanguages langs with
  | Except.error e => Except.error e
  | Except.ok sorted =>
      Except.ok
        [Effect.mkOutputDir,
         Effect.writeJson "generated/languages.json"
           (JValue.jobj (languages_data sorted)),
         Effect.writeText "generated/languages.svg"
           (applySubsts (languagesSubsts sorted) template)]

/-- The effects of generate_overview (lines 31-65). -/
def generateOverviewRun (template : String) (s : StatsSnapshot) :
    List Effect :=
  [Effect.mkOutputDir,
   Effect.writeJson "generated/overview.json" (JValue.jobj (overview_data s)),
   Effect.writeText "generated/overview.svg" (generateOverviewSvg template s)]

/-!  Configuration (main, lines 128-162). -/

/-- The environment variables the script can observe.  The last field is
    the ignore-forked-repos input of the configuration table of the spec;
    line 148 of the source never reads it and hardcodes the raw value. -/
structure Env where
  ACCESS_TOKEN : Option String
  GITHUB_ACTOR : Option String
  EXCLUDED : Option String
  EXCLUDED_LANGS : Option String
  EXCLUDE_FORKED_REPOS : Option String
deriving DecidableEq

/-- The two configuration failures: line 135 raises for a missing or empty
    token, line 138 raises for a missing actor. -/
inductive ConfigError where
  | missingToken : ConfigError
  | missingActor : ConfigError
deriving DecidableEq

/-- Whitespace characters removed by the Python str.strip method. -/
def isPySpace (c : Char) : Bool :=
  c == ' ' || c == '\t' || c == '\n' || c == '\r' || c == '\x0b' || c == '\x0c'

/-- Python str.strip on a character list. -/
def pyStripChars (s : List Char) : List Char :=
  ((s.dropWhile isPySpace).reverse.dropWhile isPySpace).reverse

/-- Python str.strip. -/
def pyStrip (s : String) : String := String.mk (pyStripChars s.data)

/-- Python str.lower, adequate for the ASCII values compared here. -/
def pyLower (s : String) : String := String.mk (s.data.map Char.toLower)

/-- Python truthiness of a string: empty is false, anything else true. -/
def pyTruthyStr (s : String) : Bool := s ≠ ""

/-- Python str.split on a comma: always at least one group, empty groups
    kept. -/
def splitOnComma : List Char → List (List Char)
  | [] => [[]]
  | c :: rest =>
    if c == ',' then [] :: splitOnComma rest
    else
      match splitOnComma rest with
      | [] => [c] :: []
      | g :: gs => (c :: g) :: gs

/-- Lines 139-146: a missing or empty variable gives no exclusion set,
    otherwise the comma-separated items are trimmed.  The Python set is
    modelled as the list of trimmed items in split order (deduplication
    never matters to the claims). -/
def parseCsvSet (v : Option String) : Option (List String) :=
  match v with
  | none => none
  | some s =>
    if pyTruthyStr s then
      some ((splitOnComma s.data).map (fun g => String.mk (pyStripChars g)))
    else none

/-- Line 148: the raw ignore-forked-repos value is the string literal true;
    no environment input is consulted. -/
def rawIgnoreForkedRepos : String := "true"

/-- Lines 149-152: truthiness of the raw value combined with the
    comparison of its trimmed lowercase form against the string false. -/
def ignoreForkedReposFlag : Bool :=
  pyTruthyStr rawIgnoreForkedRepos &&
    decide (pyLower (pyStrip rawIgnoreForkedRepos) ≠ "false")

/-- The values passed to the Stats constructor on lines 154-161. -/
structure Config where
  user : String
  accessToken : String
  excludeRepos : Option (List String)
  excludeLangs : Option (List String)
  ignoreForkedRepos : Bool
deriving DecidableEq

/-- Lines 132-161 before the network session opens: token check first
    (missing or empty raises), then the actor check (only a missing value
    raises; an empty string passes), then the remaining inputs are parsed
    without any possibility of failure. -/
def validateConfig (env : Env) : Except ConfigError Config :=
  match env.ACCESS_TOKEN with
  | none => Except.error ConfigError.missingToken
  | some t =>
    if t = "" then Except.error ConfigError.missingToken
    else
      match env.GITHUB_ACTOR with
      | none => Except.error ConfigError.missingActor
      | some u =>
        Except.ok
          { user := u, accessToken := t,
            excludeRepos := parseCsvSet env.EXCLUDED,
            excludeLangs := parseCsvSet env.EXCLUDED_LANGS,
            ignoreForkedRepos := ignoreForkedReposFlag }

/-- Outcome of a run that passed configuration: the constructed Config,
    the filesystem effects, and the languages failure when its sort
    raised. -/
structure RunResult where
  config : Config
  effects : List Effect
  failure : Option PyError

/-- Model of main (lines 128-162): configuration is validated before the
    session opens, so a configuration error happens before any network call
    or filesystem effect.  The two renderers then run concurrently under
    asyncio.gather; the model lists the languages effects before the
    overview effects (no claim depends on the interleaving), and when the
    languages sort raises, the languages renderer contributes no effect
    while the sibling may still complete. -/
def mainRun (env : Env) (overviewTemplate languagesTemplate : String)
    (snap : StatsSnapshot) : Except ConfigError RunResult :=
  match validateConfig env with
  | Except.error e => Except.error e
  | Except.ok cfg =>
    match generateLanguagesRun languagesTemplate snap.languages with
    | Except.ok le =>
        Except.ok { config := cfg,
                    effects := le ++ generateOverviewRun overviewTemplate snap,
                    failure := none }
    | Except.error e =>
        Except.ok { config := cfg,
                    effects := generateOverviewRun overviewTemplate snap,
                    failure := some e }

/-- The filesystem effects of a run, empty when configuration failed. -/
def mainEffects (r : Except ConfigError RunResult) : List Effect :=
  match r with
  | Except.error _ => []
  | Except.ok res => res.effects

/-!  Concrete fixtures used by counterexamples and witnesses. -/

/-- A snapshot with neutral values, varied per concrete scenario. -/
def zeroSnap : StatsSnapshot :=
  { name := "octocat", stargazers := 0, forks := 0, total_contributions := 0,
    lines_changed := (0, 0), views := 0, repos := [], languages := [] }

/-- A single language whose color and prop keys are absent. -/
def c1Langs : List (String × LangEntry) :=
  [("A", { size := some 5, color := none, prop := none })]

/-- An environment that supplies the string false for the
    ignore-forked-repos input. -/
def c2Env : Env :=
  { ACCESS_TOKEN := some "token", GITHUB_ACTOR := some "octocat",
    EXCLUDED := none, EXCLUDED_LANGS := none,
    EXCLUDE_FORKED_REPOS := some "false" }

/-- The configuration the script builds from c2Env. -/
def c2Config : Config :=
  { user := "octocat", accessToken := "token", excludeRepos := none,
    excludeLangs := none, ignoreForkedRepos := true }

/-- A snapshot whose display name is exactly the stars placeholder. -/
def c3Snap : StatsSnapshot :=
  { zeroSnap with name := "\x7b\x7b stars \x7d\x7d", stargazers := 7 }

/-- An environment whose actor is present but empty. -/
def c4EnvEmptyActor : Env :=
  { ACCESS_TOKEN := some "tok", GITHUB_ACTOR := some "",
    EXCLUDED := none, EXCLUDED_LANGS := none, EXCLUDE_FORKED_REPOS := none }

/-- An environment with no access token. -/
def c4EnvNoToken : Env :=
  { ACCESS_TOKEN := none, GITHUB_ACTOR := some "octocat",
    EXCLUDED := none, EXCLUDED_LANGS := none, EXCLUDE_FORKED_REPOS := none }

/-- Three languages with a size tie between B and C. -/
def c5Langs : List (String × LangEntry) :=
  [("A", { size := some 1, color := none, prop := some 10 }),
   ("B", { size := some 3, color := some "#fff", prop := some 60 }),
   ("C", { size := some 3, color := none, prop := some 30 })]

/-- The stable descending sort of c5Langs: the tie keeps B before C. -/
def c5Sorted : List (String × LangEntry) :=
  [("B", { size := some 3, color := some "#fff", prop := some 60 }),
   ("C", { size := some 3, color := none, prop := some 30 }),
   ("A", { size := some 1, color := none, prop := some 10 })]

/-- A language entry with both color and prop absent. -/
def c7Entry : LangEntry := { size := some 300, color := none, prop := none }

/-- The scenario snapshot of the spec: 1234 stars and 56 forks. -/
def c8Snap : StatsSnapshot := { zeroSnap with stargazers := 1234, forks := 56 }

/-- Two languages for the animation-delay witness. -/
def c9Langs : List (String × LangEntry) :=
  [("Python", { size := some 300, color := some "#3572A5", prop := some 60 }),
   ("Lua", { size := some 100, color := none, prop := some 40 })]

/-- Two languages of which the second lacks its size key. -/
def c10Langs : List (String × LangEntry) :=
  [("A", { size := some 300, color := none, prop := none }),
   ("B", { size := none, color := some "#fff", prop := some 25 })]

/-!  Shared helper lemmas. -/

theorem fmtFixed_two_zero : fmtFixed 2 0 = "0.00" := by
  norm_num [fmtFixed]
  decide

theorem fmtFixed_three_zero : fmtFixed 3 0 = "0.000" := by
  norm_num [fmtFixed]
  decide

/-!  Claim theorems. -/

/-- C6: for every snapshot, the overview JSON payload is a flat mapping
    with exactly the seven keys name, stars, forks, contributions,
    lines_changed, views, repos; name stays text and every numeric field
    stays an integer; lines_changed is exactly added plus deleted and repos
    is the count of the repository collection. -/
theorem c6_overview_payload (s : StatsSnapshot) :
    (overview_data s).map Prod.fst =
      ["name", "stars", "forks", "contributions", "lines_changed", "views",
       "repos"] ∧
    List.lookup "name" (overview_data s) = some (JValue.jstr s.name) ∧
    List.lookup "stars" (overview_data s) = some (JValue.jint s.stargazers) ∧
    List.lookup "forks" (overview_data s) = some (JValue.jint s.forks) ∧
    List.lookup "contributions" (overview_data s) =
      some (JValue.jint s.total_contributions) ∧
    List.lookup "lines_changed" (overview_data s) =
      some (JValue.jint (s.lines_changed.1 + s.lines_changed.2)) ∧
    List.lookup "views" (overview_data s) = some (JValue.jint s.views) ∧
    List.lookup "repos" (overview_data s) =
      some (JValue.jint s.repos.length) :=
  ⟨rfl, rfl, rfl, rfl, rfl, rfl, rfl, rfl⟩

/-- C8: every numeric overview field is substituted with thousands-group
    separators while the name is inserted as plain text, and the scenario
    stars 1234, forks 56 renders the literal texts 1,234 and 56. -/
theorem c8_thousands_separators (s : StatsSnapshot) :
    ("\x7b\x7b name \x7d\x7d", s.name) ∈ overviewSubsts s ∧
    ("\x7b\x7b stars \x7d\x7d", fmtThousands s.stargazers) ∈ overviewSubsts s ∧
    ("\x7b\x7b forks \x7d\x7d", fmtThousands s.forks) ∈ overviewSubsts s ∧
    ("\x7b\x7b contributions \x7d\x7d", fmtThousands s.total_contributions) ∈
      overviewSubsts s ∧
    ("\x7b\x7b lines_changed \x7d\x7d",
       fmtThousands (s.lines_changed.1 + s.lines_changed.2)) ∈
      overviewSubsts s ∧
    ("\x7b\x7b views \x7d\x7d", fmtThousands s.views) ∈ overviewSubsts s ∧
    ("\x7b\x7b repos \x7d\x7d", fmtThousands s.repos.length) ∈
      overviewSubsts s ∧
    fmtThousands 1234 = "1,234" ∧
    fmtThousands 56 = "56" ∧
    generateOverviewSvg
        "\x7b\x7b stars \x7d\x7d and \x7b\x7b forks \x7d\x7d" c8Snap =
      "1,234 and 56" := by
  refine ⟨?_, ?_, ?_, ?_, ?_, ?_, ?_, by decide, by decide, by decide⟩ <;>
    simp [overviewSubsts]

/-- C9: the list item generated at position i of the languages list is
    langListItem i, whose delay value is exactly i * 150 milliseconds, and
    the delay is strictly increasing in the position. -/
theorem c9_animation_delays (l : List (String × LangEntry)) (i : Nat)
    (lang : String) (d : LangEntry) (h : l[i]? = some (lang, d)) :
    (langListItems l)[i]? = some (langListItem i lang d) ∧
    animationDelay i = i * 150 ∧
    StrictMono animationDelay := by
  refine ⟨?_, rfl, ?_⟩
  · simp [langListItems, List.getElem?_map, List.getElem?_enum, h]
  · intro a b hab
    simp only [animationDelay]
    omega

/-- Witness for C9 at the second entry of a concrete list. -/
theorem c9_animation_delays_witness :
    (langListItems c9Langs)[1]? =
      some (langListItem 1 "Lua"
        { size := some 100, color := none, prop := some 40 }) ∧
    animationDelay 1 = 1 * 150 ∧
    StrictMono animationDelay :=
  c9_animation_delays c9Langs 1 "Lua"
    { size := some 100, color := none, prop := some 40 } rfl

/-- C7: a language entry whose color is absent renders with the fixed
    default color in both the progress segment and the list marker, and an
    entry whose prop is absent renders a bar width of 0 (format 0.000) and
    the list label 0.00 percent. -/
theorem c7_missing_color_and_percentage (d : LangEntry) (i : Nat)
    (lang : String) :
    (d.color = none →
      resolvedColor d = "#000000" ∧
      progressSegment d = progressSegment { d with color := some "#000000" } ∧
      langListItem i lang d =
        langListItem i lang { d with color := some "#000000" }) ∧
    (d.prop = none →
      fmtFixed 3 (d.prop.getD 0) = "0.000" ∧
      progressSegment d =
        "<span style=\"background-color: " ++ resolvedColor d ++
          ";width: " ++ "0.000" ++ "%;\" class=\"progress-item\"></span>" ∧
      langListItem i lang d =
        "\n<li style=\"animation-delay: " ++ Nat.repr (animationDelay i) ++
          "ms;\">" ++ langListItemBody lang d ++ "0.00" ++
          "%</span>\n</li>\n") := by
  constructor
  · intro hc
    refine ⟨?_, ?_, ?_⟩ <;>
      simp [resolvedColor, progressSegment, langListItem, langListItemBody, hc]
  · intro hp
    have h3 : fmtFixed 3 (d.prop.getD 0) = "0.000" := by
      rw [hp]; exact fmtFixed_three_zero
    have h2 : fmtFixed 2 (d.prop.getD 0) = "0.00" := by
      rw [hp]; exact fmtFixed_two_zero
    exact ⟨h3, by rw [progressSegment, h3], by rw [langListItem, h2]⟩

/-- Witness for C7 at a concrete entry missing both keys. -/
theorem c7_missing_color_and_percentage_witness :
    resolvedColor c7Entry = "#000000" ∧
    fmtFixed 3 (c7Entry.prop.getD 0) = "0.000" :=
  ⟨((c7_missing_color_and_percentage c7Entry 0 "A").1 rfl).1,
   ((c7_missing_color_and_percentage c7Entry 0 "A").2 rfl).1⟩

/-- C1 counterexample: for a language whose prop key is absent, the
    languages JSON payload carries the number 0 as its percentage, not an
    absent or null value, so raw absence is not passed through. -/
theorem c1_counterexample :
    sortLanguages c1Langs = Except.ok c1Langs ∧
    languages_data c1Langs =
      [("A", JValue.jobj
        [("size", JValue.jint 5), ("color", JValue.jnull),
         ("percentage", JValue.jnum 0)])] ∧
    JValue.jnum 0 ≠ JValue.jnull := by
  refine ⟨?_, rfl, fun hne => JValue.noConfusion hne⟩
  simp [sortLanguages, c1Langs, List.mergeSort]

/-- C1 amended: each languages JSON entry maps the language to size, color
    and percentage, where size and color are the raw optional values
    (absent becomes null) while percentage is read with the default 0, so
    an absent prop becomes the number 0. -/
theorem c1_languages_json_entries (sorted : List (String × LangEntry))
    (i : Nat) (h : i < sorted.length) :
    (languages_data sorted)[i]? =
      some ((sorted[i]).1, JValue.jobj
        [("size", jOfOptNat (sorted[i]).2.size),
         ("color", jOfOptStr (sorted[i]).2.color),
         ("percentage", JValue.jnum ((sorted[i]).2.prop.getD 0))]) ∧
    jOfOptStr none = JValue.jnull ∧
    jOfOptNat none = JValue.jnull ∧
    ((sorted[i]).2.prop = none →
        JValue.jnum ((sorted[i]).2.prop.getD 0) = JValue.jnum 0) := by
  refine ⟨?_, rfl, rfl, fun hp => by rw [hp]; rfl⟩
  simp [languages_data, langJson, List.getElem?_map, List.getElem?_eq_getElem h]

/-- Witness for C1 at the single entry of c1Langs. -/
theorem c1_languages_json_entries_witness :
    (languages_data c1Langs)[0]? =
      some ((c1Langs[0]).1, JValue.jobj
        [("size", jOfOptNat (c1Langs[0]).2.size),
         ("color", jOfOptStr (c1Langs[0]).2.color),
         ("percentage", JValue.jnum ((c1Langs[0]).2.prop.getD 0))]) ∧
    jOfOptStr none = JValue.jnull ∧
    jOfOptNat none = JValue.jnull ∧
    ((c1Langs[0]).2.prop = none →
        JValue.jnum ((c1Langs[0]).2.prop.getD 0) = JValue.jnum 0) :=
  c1_languages_json_entries c1Langs 0 (by decide)

/-- C2 counterexample: with the input equal to the string false, the flag
    passed to the Stats constructor is still true, although the trimmed
    lowercase input does equal false. -/
theorem c2_counterexample :
    validateConfig c2Env = Except.ok c2Config ∧
    c2Config.ignoreForkedRepos = true ∧
    pyLower (pyStrip "false") = "false" :=
  ⟨rfl, rfl, by decide⟩

/-- C2 amended: the ignore-forked-repos input is never consulted; the raw
    value is the hardcoded string true, so every successfully built
    configuration carries the flag true, whatever the environment holds. -/
theorem c2_ignore_forked_always_true (env : Env) (c : Config)
    (h : validateConfig env = Except.ok c) :
    c.ignoreForkedRepos = true ∧ ignoreForkedReposFlag = true := by
  refine ⟨?_, by decide⟩
  unfold validateConfig at h
  split at h
  · exact Except.noConfusion h
  · split at h
    · exact Except.noConfusion h
    · split at h
      · exact Except.noConfusion h
      · injection h with h2
        rw [← h2]
        show ignoreForkedReposFlag = true
        decide

/-- Witness for C2 at the environment supplying false. -/
theorem c2_ignore_forked_always_true_witness :
    c2Config.ignoreForkedRepos = true ∧ ignoreForkedReposFlag = true :=
  c2_ignore_forked_always_true c2Env c2Config rfl

/-- Skipping exactly the length of a block just consumed copies nothing
    and resumes scanning after it. -/
theorem replaceAllAux_skip (pat repl : List Char) :
    ∀ (xs s : List Char),
      replaceAllAux pat repl (xs ++ s) xs.length = replaceAllAux pat repl s 0
  | [], _ => rfl
  | x :: xs, s => by
    rw [List.cons_append, List.length_cons]
    show replaceAllAux pat repl (xs ++ s) xs.length = _
    exact replaceAllAux_skip pat repl xs s

/-- A nonempty token occurring at the head of the text is replaced and the
    scan resumes after it. -/
theorem replaceAllAux_head_match (pat repl b : List Char) (h : pat ≠ []) :
    replaceAllAux pat repl (pat ++ b) 0 =
      repl ++ replaceAllAux pat repl b 0 := by
  match pat, h with
  | p :: ps, _ =>
    show replaceAllAux (p :: ps) repl (p :: (ps ++ b)) 0 = _
    rw [replaceAllAux, if_pos]
    · rw [List.length_cons, Nat.add_sub_cancel]
      exact congrArg _ (replaceAllAux_skip (p :: ps) repl ps b)
    · exact List.isPrefixOf_iff_prefix.mpr
        (show p :: ps <+: p :: ps ++ b from List.prefix_append _ _)

/-- When the token does not start at the current character, that character
    is copied unchanged. -/
theorem replaceAllAux_no_match (pat repl : List Char) (c : Char)
    (rest : List Char) (h : pat.isPrefixOf (c :: rest) = false) :
    replaceAllAux pat repl (c :: rest) 0 =
      c :: replaceAllAux pat repl rest 0 := by
  rw [replaceAllAux, if_neg]
  simp [h]

/-- A token whose first character never occurs in the text leaves the text
    unchanged. -/
theorem replaceAllAux_head_not_mem (c : Char) (ps repl : List Char) :
    ∀ (s : List Char), c ∉ s → replaceAllAux (c :: ps) repl s 0 = s
  | [], _ => rfl
  | d :: rest, h => by
    have hd : (c == d) = false :=
      beq_eq_false_iff_ne.mpr (fun e => h (e ▸ List.mem_cons_self d rest))
    have hpre : (c :: ps).isPrefixOf (d :: rest) = false := by
      simp [List.isPrefixOf, hd]
    rw [replaceAllAux_no_match _ _ _ _ hpre,
      replaceAllAux_head_not_mem c ps repl rest
        (fun hm => h (List.mem_cons_of_mem d hm))]

/-- C3 counterexample: the name substitution inserts a value that is
    exactly the stars placeholder, and the later stars substitution does
    rewrite it, so the rendered output is the formatted star count instead
    of the inserted text. -/
theorem c3_counterexample :
    pyReplace "\x7b\x7b name \x7d\x7d" "\x7b\x7b stars \x7d\x7d"
        "\x7b\x7b name \x7d\x7d" = "\x7b\x7b stars \x7d\x7d" ∧
    generateOverviewSvg "\x7b\x7b name \x7d\x7d" c3Snap = "7" ∧
    ("7" : String) ≠ "\x7b\x7b stars \x7d\x7d" :=
  ⟨by decide, by decide, by decide⟩

/-- C3 amended: substitution is textual and sequential.  Each step
    replaces every occurrence of its literal token in the current text with
    the value inserted verbatim, scanning left to right without overlap and
    leaving text without the token unchanged; because later steps rescan
    the whole text, a value inserted by an earlier step that contains a
    later token is substituted again by that later step, as the concrete
    rendering shows. -/
theorem c3_sequential_textual_substitution :
    (∀ (p : String × String) (ps : List (String × String)) (t : String),
        applySubsts (p :: ps) t = applySubsts ps (pyReplace p.1 p.2 t)) ∧
    (∀ (pat repl b : List Char), pat ≠ [] →
        replaceAllAux pat repl (pat ++ b) 0 =
          repl ++ replaceAllAux pat repl b 0) ∧
    (∀ (pat repl : List Char) (c : Char) (rest : List Char),
        pat.isPrefixOf (c :: rest) = false →
        replaceAllAux pat repl (c :: rest) 0 =
          c :: replaceAllAux pat repl rest 0) ∧
    (∀ (c : Char) (ps repl s : List Char), c ∉ s →
        replaceAllAux (c :: ps) repl s 0 = s) ∧
    generateOverviewSvg "\x7b\x7b name \x7d\x7d" c3Snap = "7" :=
  ⟨fun _ _ _ => rfl,
   replaceAllAux_head_match,
   replaceAllAux_no_match,
   fun c ps repl s h => replaceAllAux_head_not_mem c ps repl s h,
   by decide⟩

/-- Witness for C3 at concrete tokens and texts. -/
theorem c3_sequential_textual_substitution_witness :
    applySubsts [("a", "b")] "a" = applySubsts [] (pyReplace "a" "b" "a") ∧
    replaceAllAux ['x'] ['y', 'z'] (['x'] ++ ['w']) 0 =
      ['y', 'z'] ++ replaceAllAux ['x'] ['y', 'z'] ['w'] 0 ∧
    replaceAllAux ['x'] ['y'] ('a' :: ['b']) 0 =
      'a' :: replaceAllAux ['x'] ['y'] ['b'] 0 ∧
    replaceAllAux ('x' :: []) ['y'] ['a', 'b'] 0 = ['a', 'b'] :=
  ⟨c3_sequential_textual_substitution.1 ("a", "b") [] "a",
   c3_sequential_textual_substitution.2.1 ['x'] ['y', 'z'] ['w'] (by decide),
   c3_sequential_textual_substitution.2.2.1 ['x'] ['y'] 'a' ['b'] (by decide),
   c3_sequential_textual_substitution.2.2.2.1 'x' [] ['y'] ['a', 'b']
     (by decide)⟩

/-- C4 counterexample: an actor supplied as the empty string passes
    validation, so the run proceeds instead of failing with a distinct
    error for the missing user identity. -/
theorem c4_counterexample :
    validateConfig c4EnvEmptyActor =
      Except.ok { user := "", accessToken := "tok", excludeRepos := none,
                  excludeLangs := none, ignoreForkedRepos := true } ∧
    (mainRun c4EnvEmptyActor "" "" zeroSnap).isOk = true := by
  constructor
  · rfl
  · have hs : sortLanguages [] = Except.ok [] := by
      simp [sortLanguages, List.mergeSort]
    simp [mainRun, generateLanguagesRun, zeroSnap, hs, validateConfig,
      c4EnvEmptyActor, Except.isOk, Except.toBool]

/-- C4 amended: a missing or empty access token fails the run with the
    token error before any network call or filesystem effect; a missing
    actor fails with the distinct actor error, also before any effect; an
    actor supplied as the empty string is accepted. -/
theorem c4_config_failures (env : Env) (ovT lgT : String)
    (snap : StatsSnapshot) :
    ((env.ACCESS_TOKEN = none ∨ env.ACCESS_TOKEN = some "") →
        mainRun env ovT lgT snap = Except.error ConfigError.missingToken ∧
        mainEffects (mainRun env ovT lgT snap) = []) ∧
    ((∃ t, env.ACCESS_TOKEN = some t ∧ t ≠ "") → env.GITHUB_ACTOR = none →
        mainRun env ovT lgT snap = Except.error ConfigError.missingActor ∧
        mainEffects (mainRun env ovT lgT snap) = []) ∧
    ConfigError.missingToken ≠ ConfigError.missingActor := by
  refine ⟨?_, ?_, by decide⟩
  · intro hA
    have hv : validateConfig env = Except.error ConfigError.missingToken := by
      rcases hA with h | h <;> simp [validateConfig, h]
    exact ⟨by simp [mainRun, hv], by simp [mainEffects, mainRun, hv]⟩
  · rintro ⟨t, ht, hne⟩ hActor
    have hv : validateConfig env = Except.error ConfigError.missingActor := by
      simp [validateConfig, ht, hActor, hne]
    exact ⟨by simp [mainRun, hv], by simp [mainEffects, mainRun, hv]⟩

/-- Witness for C4 at an environment with no token. -/
theorem c4_config_failures_witness :
    mainRun c4EnvNoToken "" "" zeroSnap =
      Except.error ConfigError.missingToken ∧
    mainEffects (mainRun c4EnvNoToken "" "" zeroSnap) = [] :=
  (c4_config_failures c4EnvNoToken "" "" zeroSnap).1 (Or.inl rfl)

/-- C10: whenever the language mapping has at least two entries and one of
    them lacks its size key, the sort of line 74 raises TypeError, the
    languages renderer fails before its first filesystem effect, and
    neither languages.json nor languages.svg is produced. -/
theorem c10_missing_size_raises (template : String)
    (l : List (String × LangEntry)) (h2 : 2 ≤ l.length)
    (hm : ∃ p ∈ l, p.2.size = none) :
    sortLanguages l = Except.error PyError.typeError ∧
    generateLanguagesRun template l = Except.error PyError.typeError := by
  have hc : sortLanguages l = Except.error PyError.typeError := by
    unfold sortLanguages
    rw [if_pos]
    refine ⟨h2, List.any_eq_true.mpr ?_⟩
    rcases hm with ⟨p, hp, hs⟩
    exact ⟨p, hp, by simp [hs]⟩
  exact ⟨hc, by simp [generateLanguagesRun, hc]⟩

/-- Witness for C10 at a concrete two-entry mapping. -/
theorem c10_missing_size_raises_witness :
    sortLanguages c10Langs = Except.error PyError.typeError ∧
    generateLanguagesRun "" c10Langs = Except.error PyError.typeError :=
  c10_missing_size_raises "" c10Langs (by decide)
    ⟨("B", { size := none, color := some "#fff", prop := some 25 }),
     List.mem_cons_of_mem _ (List.mem_cons_self _ _), rfl⟩

/-- The descending size comparison is transitive. -/
theorem langDescOrder_trans (a b c : String × LangEntry)
    (hab : langDescOrder a b = true) (hbc : langDescOrder b c = true) :
    langDescOrder a c = true := by
  simp only [langDescOrder, decide_eq_true_eq] at *
  omega

/-- The descending size comparison is total. -/
theorem langDescOrder_total (a b : String × LangEntry) :
    (langDescOrder a b || langDescOrder b a) = true := by
  simp only [langDescOrder, Bool.or_eq_true, decide_eq_true_eq]
  omega

/-- C5: every successful sort of the language mapping is in non-increasing
    size order, is stable in the sense that the subsequence of entries of
    any fixed size is exactly the same as in the provider order, and the
    languages JSON payload lists the languages in exactly that sorted
    order. -/
theorem c5_sorted_descending_stable (l r : List (String × LangEntry))
    (k : Nat) (h : sortLanguages l = Except.ok r) :
    List.Pairwise (fun a b => b.2.size.getD 0 ≤ a.2.size.getD 0) r ∧
    r.filter (fun p => p.2.size.getD 0 == k) =
      l.filter (fun p => p.2.size.getD 0 == k) ∧
    (languages_data r).map Prod.fst = r.map Prod.fst := by
  have hr : r = l.mergeSort langDescOrder := by
    unfold sortLanguages at h
    split at h
    · exact Except.noConfusion h
    · injection h with h2
      exact h2.symm
  subst hr
  refine ⟨?_, ?_, ?_⟩
  · exact (List.sorted_mergeSort langDescOrder_trans langDescOrder_total
      l).imp (fun hab => by
        simpa only [langDescOrder, decide_eq_true_eq] using hab)
  · have hsub : (l.filter (fun p => p.2.size.getD 0 == k)).Sublist l :=
      List.filter_sublist l
    have hpw : List.Pairwise (fun a b => langDescOrder a b = true)
        (l.filter (fun p => p.2.size.getD 0 == k)) := by
      refine List.pairwise_iff_forall_sublist.mpr (fun hab => ?_)
      rename_i a b
      have ha := (List.mem_filter.mp
        (hab.subset (List.mem_cons_self _ _))).2
      have hb := (List.mem_filter.mp
        (hab.subset (List.mem_cons_of_mem _ (List.mem_cons_self _ _)))).2
      simp only [Nat.beq_eq_true_eq] at ha hb
      simp only [langDescOrder, ha, hb, decide_eq_true_eq]
      omega
    have h1 := List.sublist_mergeSort langDescOrder_trans langDescOrder_total
      hpw hsub
    have h2 := h1.filter (fun p => p.2.size.getD 0 == k)
    rw [List.filter_eq_self.mpr
      (fun a ha => (List.mem_filter.mp ha).2)] at h2
    have hperm := (List.mergeSort_perm l langDescOrder).filter
      (fun p => p.2.size.getD 0 == k)
    exact (h2.eq_of_length hperm.length_eq.symm).symm
  · simp [languages_data]

/-- Witness for C5 at a concrete mapping with a size tie. -/
theorem c5_sorted_descending_stable_witness :
    List.Pairwise
      (fun a b : String × LangEntry =>
        b.2.size.getD 0 ≤ a.2.size.getD 0) c5Sorted ∧
    c5Sorted.filter (fun p => p.2.size.getD 0 == 3) =
      c5Langs.filter (fun p => p.2.size.getD 0 == 3) ∧
    (languages_data c5Sorted).map Prod.fst = c5Sorted.map Prod.fst :=
  c5_sorted_descending_stable c5Langs c5Sorted 3 (by
    simp [sortLanguages, c5Langs, c5Sorted, List.mergeSort, langDescOrder,
      List.merge])
